import Mathlib

/-!
Shallow embedding of the protego-chrome-extension backend
(`src/backend/app`): the `PageVisit` data model (`models.py`), the CRUD
layer (`crud.py`), the request/response validation (`schemas.py`), the
response envelope helpers (`response.py`) and the HTTP route handlers
(`routers/visits.py`).

Timestamps are modelled as integers (e.g. microseconds since the epoch:
`datetime` values in the code are totally ordered and compared only with
`<`/`≤`/equality), record ids as naturals (the code uses UUID4; all that
matters is freshness/uniqueness), and JSON bodies as a small inductive
`J`.  The relational store is modelled as a list of rows plus a fresh-id
counter; `ORDER BY datetime_visited DESC` is modelled with
`List.insertionSort`, and `LIMIT l OFFSET o` as `(·.drop o).take l`,
which is SQL's semantics (offset applied before limit).
-/

namespace Protego

/-- JSON values, as far as the service's bodies need them. -/
inductive J where
  | jNull : J
  | jBool : Bool → J
  | jInt : Int → J
  | jStr : String → J
  | jArr : List J → J
  | jObj : List (String × J) → J
deriving Repr, BEq

/-- A row of the `page_visits` table (`models.py`, class `PageVisit`):
id (UUID primary key), url (text), datetime_visited, the three metric
columns and `created_at`. -/
structure Visit where
  id : Nat
  url : String
  datetime_visited : Int
  link_count : Int
  word_count : Int
  image_count : Int
  created_at : Int
deriving Repr, DecidableEq

/-- The relational store: the stored rows plus a source of fresh ids
(the code draws UUID4 values; freshness is the modelled property). -/
structure DB where
  visits : List Visit
  nextId : Nat
deriving Repr, DecidableEq

/-- A validated creation payload (`schemas.py`, `PageVisitCreate` after
pydantic validation): `url` a string, `datetime_visited` optional, the
three metrics integers. -/
structure PageVisitCreate where
  url : String
  datetime_visited : Option Int
  link_count : Int
  word_count : Int
  image_count : Int
deriving Repr, DecidableEq

/-- `ORDER BY datetime_visited DESC`: row `a` may precede row `b` iff its
timestamp is at least `b`'s. -/
def visitedDesc (a b : Visit) : Prop := b.datetime_visited ≤ a.datetime_visited

instance : DecidableRel visitedDesc := fun a b =>
  inferInstanceAs (Decidable (b.datetime_visited ≤ a.datetime_visited))

instance : IsTotal Visit visitedDesc :=
  ⟨fun a b => (Int.le_total a.datetime_visited b.datetime_visited).symm⟩

instance : IsTrans Visit visitedDesc := ⟨fun _ _ _ h1 h2 => le_trans h2 h1⟩

/-- The rows matching a URL filter (`.filter(PageVisit.url == url)`). -/
def matching (db : DB) (url : String) : List Visit :=
  db.visits.filter (fun v => v.url = url)

/-- The rows matching a URL, in `ORDER BY datetime_visited DESC` order. -/
def sortedMatching (db : DB) (url : String) : List Visit :=
  List.insertionSort visitedDesc (matching db url)

/-- All rows in `ORDER BY datetime_visited DESC` order. -/
def sortedAll (db : DB) : List Visit :=
  List.insertionSort visitedDesc db.visits

namespace Crud

/-- `crud.create_page_visit`: uses the supplied `datetime_visited` or the
current time (`visit.datetime_visited or datetime.utcnow()`), builds a row
with a fresh id and `created_at` set to the current time, inserts it, and
returns the refreshed row together with the new store state. -/
def create_page_visit (db : DB) (visit : PageVisitCreate) (now : Int) : Visit × DB :=
  let visit_time := visit.datetime_visited.getD now
  let db_visit : Visit :=
    { id := db.nextId
      url := visit.url
      datetime_visited := visit_time
      link_count := visit.link_count
      word_count := visit.word_count
      image_count := visit.image_count
      created_at := now }
  (db_visit, { visits := db.visits ++ [db_visit], nextId := db.nextId + 1 })

/-- `crud.get_visits_by_url`: filter on exact url equality, order by
`datetime_visited` descending, then `LIMIT limit OFFSET offset`. -/
def get_visits_by_url (db : DB) (url : String) (limit : Nat := 50) (offset : Nat := 0) : List Visit :=
  ((sortedMatching db url).drop offset).take limit

/-- `crud.get_latest_visit_by_url`: same filtered ordered query,
`.first()` — the head of the ordered result, or `none`. -/
def get_latest_visit_by_url (db : DB) (url : String) : Option Visit :=
  (sortedMatching db url).head?

/-- `crud.get_visit_count_by_url`: `COUNT` of the rows matching the url. -/
def get_visit_count_by_url (db : DB) (url : String) : Nat :=
  (matching db url).length

/-- `crud.get_all_visits`: all rows ordered by `datetime_visited`
descending, then `LIMIT limit OFFSET offset`. -/
def get_all_visits (db : DB) (limit : Nat := 100) (offset : Nat := 0) : List Visit :=
  ((sortedAll db).drop offset).take limit

end Crud

/-- Value of a hexadecimal digit, if the character is one. -/
def hexDigit (c : Char) : Option Nat :=
  if '0' ≤ c ∧ c ≤ '9' then some (c.toNat - '0'.toNat)
  else if 'a' ≤ c ∧ c ≤ 'f' then some (c.toNat - 'a'.toNat + 10)
  else if 'A' ≤ c ∧ c ≤ 'F' then some (c.toNat - 'A'.toNat + 10)
  else none

/-- `urllib.parse.unquote` on the character level: a `%` followed by two
hex digits becomes the character with that code, anything else is copied
through (Python leaves malformed escapes untouched).  Faithful for the
ASCII range; multi-byte UTF-8 escape sequences are out of scope of every
claim. -/
def unquoteAux : List Char → List Char
  | '%' :: h1 :: h2 :: rest =>
    match hexDigit h1, hexDigit h2 with
    | some a, some b => Char.ofNat (a * 16 + b) :: unquoteAux rest
    | _, _ => '%' :: unquoteAux (h1 :: h2 :: rest)
  | c :: rest => c :: unquoteAux rest
  | [] => []

/-- `urllib.parse.unquote` lifted to strings. -/
def unquote (s : String) : String := ⟨unquoteAux s.data⟩

/-- `response.success_response`: the dict
`{"success": True, "message": message, "data": data}` — always exactly
these three keys, in this order. -/
def success_response (data : J) (message : String := "Success") : List (String × J) :=
  [("success", J.jBool true), ("message", J.jStr message), ("data", data)]

/-- `response.error_response`: starts from
`{"success": False, "message": message}`; appends an `"errors"` key only
when `errors` is truthy (a non-`None`, non-empty list), then a `"data"`
key only when `data` is truthy (a non-`None`, non-empty dict).  Returns
the status code with the body. -/
def error_response (message : String) (status_code : Nat := 400)
    (errors : Option (List String) := none)
    (data : Option (List (String × J)) := none) : Nat × List (String × J) :=
  let base := [("success", J.jBool false), ("message", J.jStr message)]
  let withErrors :=
    match errors with
    | some (e :: es) => base ++ [("errors", J.jArr ((e :: es).map J.jStr))]
    | _ => base
  let withData :=
    match data with
    | some (d :: ds) => withErrors ++ [("data", J.jObj (d :: ds))]
    | _ => withErrors
  (status_code, withData)

/-- The serialized form of a persisted visit
(`PageVisitResponse.model_validate(v).model_dump()`): all seven fields,
nothing else. -/
def visitToJ (v : Visit) : J :=
  J.jObj
    [("id", J.jInt v.id), ("url", J.jStr v.url),
     ("datetime_visited", J.jInt v.datetime_visited),
     ("link_count", J.jInt v.link_count), ("word_count", J.jInt v.word_count),
     ("image_count", J.jInt v.image_count), ("created_at", J.jInt v.created_at)]

/-- An inbound creation body before validation (`schemas.py`,
`PageVisitCreate` as pydantic sees the decoded JSON): each field either
absent or some JSON value.  `datetime_visited` arrives as an already
parsed optional timestamp — no claim exercises timestamp-string parsing. -/
structure RawCreate where
  url : Option J := none
  datetime_visited : Option Int := none
  link_count : Option J := none
  word_count : Option J := none
  image_count : Option J := none

/-- pydantic validation of `url: str = Field(...)`: required, must be a
string — and nothing more (any string passes, the `HttpUrl` import of
`schemas.py` is unused). -/
def validateStrField : Option J → Except String String
  | none => .error "Field required"
  | some (J.jStr s) => .ok s
  | some _ => .error "Input should be a valid string"

/-- The digits of a decimal literal, as a number — `none` when the list
is empty or holds a non-digit. -/
def digitsToNat (cs : List Char) : Option Nat :=
  if cs ≠ [] ∧ cs.all (fun c => c.isDigit) then
    some (cs.foldl (fun n c => n * 10 + (c.toNat - 48)) 0)
  else none

/-- pydantic's lax string-to-integer coercion (an optional minus sign
followed by decimal digits); anything else fails. -/
def strToInt? (s : String) : Option Int :=
  match s.data with
  | '-' :: rest => (digitsToNat rest).map (fun n => -(n : Int))
  | cs => (digitsToNat cs).map (fun n => (n : Int))

/-- pydantic validation of `link_count: int = Field(..., ge=0)` (and the
other two metrics): required; an integer, or a string that coerces to one
(pydantic lax mode); then `ge=0`. -/
def validateMetricField : Option J → Except String Int
  | none => .error "Field required"
  | some (J.jInt n) =>
    if 0 ≤ n then .ok n else .error "Input should be greater than or equal to 0"
  | some (J.jStr s) =>
    match strToInt? s with
    | some n =>
      if 0 ≤ n then .ok n else .error "Input should be greater than or equal to 0"
    | none => .error "Input should be a valid integer"
  | some _ => .error "Input should be a valid integer"

/-- The error messages a field validation contributes. -/
def errsOf {α : Type} : Except String α → List String
  | .error e => [e]
  | .ok _ => []

/-- Validation of the whole `PageVisitCreate` body: every field is
checked and all failures are reported together, as pydantic does. -/
def validatePageVisitCreate (raw : RawCreate) : Except (List String) PageVisitCreate :=
  match validateStrField raw.url, validateMetricField raw.link_count,
        validateMetricField raw.word_count, validateMetricField raw.image_count with
  | .ok u, .ok l, .ok w, .ok i => .ok ⟨u, raw.datetime_visited, l, w, i⟩
  | ru, rl, rw, ri => .error (errsOf ru ++ errsOf rl ++ errsOf rw ++ errsOf ri)

/-- The body FastAPI generates itself for a request-validation failure
(`{"detail": [...]}`); its exact entries are framework text, only the
422 status matters to the service's contract. -/
def fastApiValidationBody (errs : List String) : List (String × J) :=
  [("detail", J.jArr (errs.map J.jStr))]

/-- Outcome of the store call a handler makes, as the handler observes it
through its `try`/`except` arms: success, a raised `SQLAlchemyError`
carrying a message, or any other exception. -/
inductive StoreOutcome where
  | ok : StoreOutcome
  | sqlAlchemyError : String → StoreOutcome
  | unexpectedError : String → StoreOutcome
deriving Repr, DecidableEq

/-- Result of the POST handler: HTTP status, JSON body, the store state
afterwards, and whether the store was reached at all (validation
failures never reach it). -/
structure PostResult where
  status : Nat
  body : List (String × J)
  db : DB
  storeTouched : Bool
deriving Repr

/-- Result of a GET handler: HTTP status and JSON body. -/
structure GetResult where
  status : Nat
  body : List (String × J)
deriving Repr

namespace Routers

/-- `routers/visits.py`, `create_visit` (POST `/api/visits`): FastAPI
validates the body against `PageVisitCreate` (422 on failure, before any
store access); then `crud.create_page_visit` runs, its result wrapped in
a 201 success envelope; a `SQLAlchemyError` is translated to a 500
envelope with message "Failed to create visit" and `errors=[str(e)]`;
any other exception to a plain 500 envelope. -/
def create_visit (db : DB) (raw : RawCreate) (now : Int) (store : StoreOutcome) : PostResult :=
  match validatePageVisitCreate raw with
  | .error es => ⟨422, fastApiValidationBody es, db, false⟩
  | .ok visit =>
    match store with
    | .ok =>
      let (db_visit, db') := Crud.create_page_visit db visit now
      ⟨201, success_response (visitToJ db_visit) "Visit created successfully", db', true⟩
    | .sqlAlchemyError e =>
      let r := error_response "Failed to create visit" 500 (some [e]) none
      ⟨r.1, r.2, db, true⟩
    | .unexpectedError _ =>
      let r := error_response "An unexpected error occurred" 500 none none
      ⟨r.1, r.2, db, true⟩

/-- `routers/visits.py`, `get_visits_for_url` (GET
`/api/visits/url/{url}`): FastAPI checks `limit` against
`Query(50, ge=1, le=100)` and `offset` against `Query(0, ge=0)` (422
outside the range); the handler percent-decodes the path url, queries
the page and the total count, and wraps both in a success envelope. -/
def get_visits_for_url (db : DB) (url : String) (limit : Int := 50) (offset : Int := 0) : GetResult :=
  if 1 ≤ limit ∧ limit ≤ 100 ∧ 0 ≤ offset then
    let decoded_url := unquote url
    let visits := Crud.get_visits_by_url db decoded_url limit.toNat offset.toNat
    let total := Crud.get_visit_count_by_url db decoded_url
    ⟨200, success_response (J.jObj
      [("visits", J.jArr (visits.map visitToJ)), ("total", J.jInt total)])⟩
  else ⟨422, fastApiValidationBody ["query parameter out of range"]⟩

/-- `routers/visits.py`, `get_latest_visit_for_url` (GET
`/api/visits/url/{url}/latest`): percent-decodes the path url; if
`crud.get_latest_visit_by_url` finds nothing it returns the 404 error
envelope with message `"No visits found for URL: " + decoded_url`,
otherwise a 200 success envelope around the record. -/
def get_latest_visit_for_url (db : DB) (url : String) : GetResult :=
  let decoded_url := unquote url
  match Crud.get_latest_visit_by_url db decoded_url with
  | none =>
    let r := error_response ("No visits found for URL: " ++ decoded_url) 404 none none
    ⟨r.1, r.2⟩
  | some visit => ⟨200, success_response (visitToJ visit)⟩

/-- `routers/visits.py`, `get_all_visits` (GET `/api/visits`): FastAPI
checks `limit` against `Query(100, ge=1, le=500)` and `offset` against
`Query(0, ge=0)`; the handler queries the page and sets
`total = len(visits)` — the length of the page, not a store count. -/
def get_all_visits (db : DB) (limit : Int := 100) (offset : Int := 0) : GetResult :=
  if 1 ≤ limit ∧ limit ≤ 500 ∧ 0 ≤ offset then
    let visits := Crud.get_all_visits db limit.toNat offset.toNat
    let total := visits.length
    ⟨200, success_response (J.jObj
      [("visits", J.jArr (visits.map visitToJ)), ("total", J.jInt total)])⟩
  else ⟨422, fastApiValidationBody ["query parameter out of range"]⟩

end Routers

/-- The keys of a JSON object body, in order. -/
def bodyKeys (body : List (String × J)) : List String := body.map Prod.fst

/-- Look a key up in a JSON object body. -/
def lookupKey (body : List (String × J)) (k : String) : Option J :=
  (body.find? (fun p => p.1 = k)).map Prod.snd

/-- The `total` field inside the `data` payload of a list response. -/
def totalField (body : List (String × J)) : Option J :=
  match lookupKey body "data" with
  | some (J.jObj fields) => lookupKey fields "total"
  | _ => none

/-- The visit objects inside the `data` payload of a list response. -/
def visitsField (body : List (String × J)) : Option (List J) :=
  match lookupKey body "data" with
  | some (J.jObj fields) =>
    match lookupKey fields "visits" with
    | some (J.jArr vs) => some vs
    | _ => none
  | _ => none

/-! ### Shared lemmas about the query model -/

theorem sortedMatching_perm (db : DB) (url : String) :
    List.Perm (sortedMatching db url) (matching db url) :=
  List.perm_insertionSort _ _

theorem sortedMatching_sorted (db : DB) (url : String) :
    List.Sorted visitedDesc (sortedMatching db url) :=
  List.sorted_insertionSort _ _

theorem mem_matching {db : DB} {url : String} {v : Visit} :
    v ∈ matching db url ↔ v ∈ db.visits ∧ v.url = url := by
  simp [matching]

theorem get_visits_by_url_sublist (db : DB) (url : String) (limit offset : Nat) :
    List.Sublist (Crud.get_visits_by_url db url limit offset) (sortedMatching db url) :=
  (List.take_sublist _ _).trans (List.drop_sublist _ _)

theorem mem_get_visits_by_url {db : DB} {url : String} {limit offset : Nat} {v : Visit}
    (h : v ∈ Crud.get_visits_by_url db url limit offset) :
    v ∈ db.visits ∧ v.url = url :=
  mem_matching.mp ((sortedMatching_perm db url).mem_iff.mp
    ((get_visits_by_url_sublist db url limit offset).subset h))

theorem count_eq_length_sortedMatching (db : DB) (url : String) :
    Crud.get_visit_count_by_url db url = (sortedMatching db url).length :=
  ((sortedMatching_perm db url).length_eq).symm

theorem get_visits_by_url_full (db : DB) (url : String) (limit : Nat)
    (h : Crud.get_visit_count_by_url db url ≤ limit) :
    Crud.get_visits_by_url db url limit 0 = sortedMatching db url := by
  unfold Crud.get_visits_by_url
  rw [List.drop_zero]
  exact List.take_of_length_le (by rw [← count_eq_length_sortedMatching]; exact h)

theorem flatMap_range_chunks (l : List Visit) (P : Nat) :
    ∀ n : Nat, (List.range n).flatMap (fun k => (l.drop (k * P)).take P) = l.take (n * P)
  | 0 => by simp
  | n + 1 => by
    rw [List.range_succ, List.flatMap_append, flatMap_range_chunks l P n]
    simp [Nat.succ_mul, List.take_add]

/-! ### C1 -/

/-- C1: `create_page_visit` round-trip — the created record's `url`,
`link_count`, `word_count` and `image_count` equal the input exactly,
its `id` is the store's fresh id (hence new when every stored id is
below the counter), its `created_at` is the server time of the call,
its `datetime_visited` is the supplied value when one is given and the
server's current time otherwise, and the record is appended to the
store. -/
theorem c1_create_round_trip (db : DB) (input : PageVisitCreate) (now : Int) :
    (Crud.create_page_visit db input now).1.url = input.url ∧
    (Crud.create_page_visit db input now).1.link_count = input.link_count ∧
    (Crud.create_page_visit db input now).1.word_count = input.word_count ∧
    (Crud.create_page_visit db input now).1.image_count = input.image_count ∧
    (Crud.create_page_visit db input now).1.id = db.nextId ∧
    (Crud.create_page_visit db input now).1.created_at = now ∧
    (∀ t, input.datetime_visited = some t →
      (Crud.create_page_visit db input now).1.datetime_visited = t) ∧
    (input.datetime_visited = none →
      (Crud.create_page_visit db input now).1.datetime_visited = now) ∧
    ((∀ v ∈ db.visits, v.id < db.nextId) →
      (Crud.create_page_visit db input now).1.id ∉ db.visits.map Visit.id) ∧
    (Crud.create_page_visit db input now).2.visits
      = db.visits ++ [(Crud.create_page_visit db input now).1] := by
  refine ⟨rfl, rfl, rfl, rfl, rfl, rfl, ?_, ?_, ?_, rfl⟩
  · intro t ht
    simp [Crud.create_page_visit, ht]
  · intro ht
    simp [Crud.create_page_visit, ht]
  · intro hids hmem
    simp only [List.mem_map] at hmem
    obtain ⟨v, hv, hid⟩ := hmem
    have h1 : v.id < db.nextId := hids v hv
    rw [hid] at h1
    exact absurd h1 (lt_irrefl db.nextId)

/-- Witness for C1 at a concrete input, once with a supplied
`datetime_visited` and once without. -/
theorem c1_create_round_trip_witness :
    ((Crud.create_page_visit ⟨[⟨0, "a", 1, 0, 0, 0, 0⟩], 1⟩
        ⟨"https://example.com", some 7, 45, 1200, 8⟩ 99).1.datetime_visited = 7) ∧
    ((Crud.create_page_visit ⟨[⟨0, "a", 1, 0, 0, 0, 0⟩], 1⟩
        ⟨"https://example.com", none, 45, 1200, 8⟩ 99).1.datetime_visited = 99) ∧
    ((Crud.create_page_visit ⟨[⟨0, "a", 1, 0, 0, 0, 0⟩], 1⟩
        ⟨"https://example.com", some 7, 45, 1200, 8⟩ 99).1.id
      ∉ ([⟨0, "a", 1, 0, 0, 0, 0⟩] : List Visit).map Visit.id) := by
  refine ⟨(c1_create_round_trip ⟨[⟨0, "a", 1, 0, 0, 0, 0⟩], 1⟩
      ⟨"https://example.com", some 7, 45, 1200, 8⟩ 99).2.2.2.2.2.2.1 7 rfl,
    (c1_create_round_trip ⟨[⟨0, "a", 1, 0, 0, 0, 0⟩], 1⟩
      ⟨"https://example.com", none, 45, 1200, 8⟩ 99).2.2.2.2.2.2.2.1 rfl,
    (c1_create_round_trip ⟨[⟨0, "a", 1, 0, 0, 0, 0⟩], 1⟩
      ⟨"https://example.com", some 7, 45, 1200, 8⟩ 99).2.2.2.2.2.2.2.2.1 ?_⟩
  intro v hv
  simp only [List.mem_singleton] at hv
  subst hv
  decide

/-! ### C2 -/

/-- C2: `get_visits_by_url` returns matching records ordered by
`datetime_visited` descending: every returned page is sorted most recent
first, contains only records whose `url` matches, and when the window
covers all matches (offset 0, limit at least the match count) it is a
permutation of exactly the matching records. -/
theorem c2_list_by_url_ordering (db : DB) (url : String) (limit offset : Nat) :
    List.Sorted visitedDesc (Crud.get_visits_by_url db url limit offset) ∧
    (∀ v ∈ Crud.get_visits_by_url db url limit offset, v.url = url) ∧
    (Crud.get_visit_count_by_url db url ≤ limit →
      List.Perm (Crud.get_visits_by_url db url limit 0) (matching db url)) := by
  refine ⟨?_, ?_, ?_⟩
  · exact List.Pairwise.sublist (get_visits_by_url_sublist db url limit offset)
      (sortedMatching_sorted db url)
  · intro v hv
    exact (mem_get_visits_by_url hv).2
  · intro h
    rw [get_visits_by_url_full db url limit h]
    exact sortedMatching_perm db url

/-- Witness for C2: three visits to one URL at timestamps 1 < 2 < 3 come
back in the order 3, 2, 1, and the permutation clause applies at the
covering window. -/
theorem c2_list_by_url_ordering_witness :
    Crud.get_visits_by_url
        ⟨[⟨0, "a", 1, 0, 0, 0, 0⟩, ⟨1, "a", 3, 0, 0, 0, 0⟩, ⟨2, "a", 2, 0, 0, 0, 0⟩], 3⟩
        "a" 50 0
      = [⟨1, "a", 3, 0, 0, 0, 0⟩, ⟨2, "a", 2, 0, 0, 0, 0⟩, ⟨0, "a", 1, 0, 0, 0, 0⟩] ∧
    (Crud.get_visit_count_by_url
        ⟨[⟨0, "a", 1, 0, 0, 0, 0⟩, ⟨1, "a", 3, 0, 0, 0, 0⟩, ⟨2, "a", 2, 0, 0, 0, 0⟩], 3⟩ "a" ≤ 50 ∧
      List.Perm
        (Crud.get_visits_by_url
          ⟨[⟨0, "a", 1, 0, 0, 0, 0⟩, ⟨1, "a", 3, 0, 0, 0, 0⟩, ⟨2, "a", 2, 0, 0, 0, 0⟩], 3⟩ "a" 50 0)
        (matching
          ⟨[⟨0, "a", 1, 0, 0, 0, 0⟩, ⟨1, "a", 3, 0, 0, 0, 0⟩, ⟨2, "a", 2, 0, 0, 0, 0⟩], 3⟩ "a")) :=
  ⟨by decide,
   by decide,
   (c2_list_by_url_ordering
      ⟨[⟨0, "a", 1, 0, 0, 0, 0⟩, ⟨1, "a", 3, 0, 0, 0, 0⟩, ⟨2, "a", 2, 0, 0, 0, 0⟩], 3⟩
      "a" 50 0).2.2 (by decide)⟩

/-! ### C3 -/

theorem nodup_sortedMatching_ids {db : DB} (url : String)
    (hids : (db.visits.map Visit.id).Nodup) :
    ((sortedMatching db url).map Visit.id).Nodup := by
  have hsub : List.Sublist ((matching db url).map Visit.id) (db.visits.map Visit.id) :=
    (List.filter_sublist db.visits).map Visit.id
  have hm : ((matching db url).map Visit.id).Nodup := hids.sublist hsub
  exact (((sortedMatching_perm db url).map Visit.id).nodup_iff).mpr hm

theorem page_ids_eq (db : DB) (url : String) (P k : Nat) :
    (Crud.get_visits_by_url db url P (k * P)).map Visit.id
      = (((sortedMatching db url).map Visit.id).drop (k * P)).take P := by
  unfold Crud.get_visits_by_url
  rw [List.map_take, List.map_drop]

/-- C3: pagination disjointness — with page size `P ≥ 1` and enough pages
to cover every match (`matchCount ≤ n·P`), concatenating the pages taken
at offsets `0, P, 2P, …` rebuilds the full ordered result set exactly,
and (when stored ids are distinct) no record id occurs in two distinct
pages. -/
theorem c3_pagination_disjointness (db : DB) (url : String) (P n : Nat)
    (hP : 0 < P)
    (hn : Crud.get_visit_count_by_url db url ≤ n * P)
    (hids : (db.visits.map Visit.id).Nodup) :
    ((List.range n).flatMap (fun k => Crud.get_visits_by_url db url P (k * P))
      = sortedMatching db url) ∧
    (∀ i j, i < j →
      List.Disjoint ((Crud.get_visits_by_url db url P (i * P)).map Visit.id)
        ((Crud.get_visits_by_url db url P (j * P)).map Visit.id)) := by
  constructor
  · have h1 : (List.range n).flatMap
        (fun k => Crud.get_visits_by_url db url P (k * P))
        = (sortedMatching db url).take (n * P) :=
      flatMap_range_chunks (sortedMatching db url) P n
    rw [h1]
    exact List.take_of_length_le (by rw [← count_eq_length_sortedMatching]; exact hn)
  · intro i j hij
    have hnodup := nodup_sortedMatching_ids url hids
    have hle : i * P + P ≤ j * P := by
      calc i * P + P = (i + 1) * P := (Nat.succ_mul i P).symm
        _ ≤ j * P := Nat.mul_le_mul_right P hij
    have hdisj : List.Disjoint
        (((sortedMatching db url).map Visit.id).take (i * P + P))
        (((sortedMatching db url).map Visit.id).drop (j * P)) :=
      List.disjoint_take_drop hnodup hle
    have hsub_i : List.Sublist ((Crud.get_visits_by_url db url P (i * P)).map Visit.id)
        (((sortedMatching db url).map Visit.id).take (i * P + P)) := by
      rw [page_ids_eq, List.take_add]
      exact List.sublist_append_right _ _
    have hsub_j : List.Sublist ((Crud.get_visits_by_url db url P (j * P)).map Visit.id)
        (((sortedMatching db url).map Visit.id).drop (j * P)) := by
      rw [page_ids_eq]
      exact List.take_sublist _ _
    intro a ha hb
    exact hdisj (hsub_i.subset ha) (hsub_j.subset hb)

/-- Witness for C3: five visits to one URL, page size 2, three pages. -/
theorem c3_pagination_disjointness_witness :
    (0 < 2 ∧
      Crud.get_visit_count_by_url
        ⟨[⟨0, "a", 1, 0, 0, 0, 0⟩, ⟨1, "a", 3, 0, 0, 0, 0⟩, ⟨2, "a", 2, 0, 0, 0, 0⟩,
          ⟨3, "a", 5, 0, 0, 0, 0⟩, ⟨4, "a", 4, 0, 0, 0, 0⟩], 5⟩ "a" ≤ 3 * 2 ∧
      (([⟨0, "a", 1, 0, 0, 0, 0⟩, ⟨1, "a", 3, 0, 0, 0, 0⟩, ⟨2, "a", 2, 0, 0, 0, 0⟩,
          ⟨3, "a", 5, 0, 0, 0, 0⟩, ⟨4, "a", 4, 0, 0, 0, 0⟩] : List Visit).map Visit.id).Nodup) ∧
    ((List.range 3).flatMap (fun k =>
        Crud.get_visits_by_url
          ⟨[⟨0, "a", 1, 0, 0, 0, 0⟩, ⟨1, "a", 3, 0, 0, 0, 0⟩, ⟨2, "a", 2, 0, 0, 0, 0⟩,
            ⟨3, "a", 5, 0, 0, 0, 0⟩, ⟨4, "a", 4, 0, 0, 0, 0⟩], 5⟩ "a" 2 (k * 2))
      = sortedMatching
          ⟨[⟨0, "a", 1, 0, 0, 0, 0⟩, ⟨1, "a", 3, 0, 0, 0, 0⟩, ⟨2, "a", 2, 0, 0, 0, 0⟩,
            ⟨3, "a", 5, 0, 0, 0, 0⟩, ⟨4, "a", 4, 0, 0, 0, 0⟩], 5⟩ "a") :=
  ⟨⟨by decide, by decide, by decide⟩,
   (c3_pagination_disjointness
      ⟨[⟨0, "a", 1, 0, 0, 0, 0⟩, ⟨1, "a", 3, 0, 0, 0, 0⟩, ⟨2, "a", 2, 0, 0, 0, 0⟩,
        ⟨3, "a", 5, 0, 0, 0, 0⟩, ⟨4, "a", 4, 0, 0, 0, 0⟩], 5⟩ "a" 2 3
      (by decide) (by decide) (by decide)).1⟩

/-! ### C4 -/

theorem head?_take_one (l : List Visit) : (l.take 1).head? = l.head? := by
  cases l <;> rfl

theorem no_visits_msg (s : String) :
    "No visits found for URL: " ++ s = "No visits found" ++ (" for URL: " ++ s) := by
  rw [show ("No visits found for URL: " : String) = "No visits found" ++ " for URL: " from rfl,
      String.append_assoc]

theorem lookupKey_success_data (d : J) (m : String) :
    lookupKey (success_response d m) "data" = some d := rfl

theorem error_response_status (m : String) (st : Nat) (e : Option (List String))
    (d : Option (List (String × J))) : (error_response m st e d).1 = st := rfl

theorem lookupKey_error_success (m : String) (st : Nat) :
    lookupKey (error_response m st none none).2 "success" = some (J.jBool false) := rfl

theorem lookupKey_error_message (m : String) (st : Nat) :
    lookupKey (error_response m st none none).2 "message" = some (J.jStr m) := rfl

/-- C4: `get_latest_visit_by_url` equals the head of
`get_visits_by_url` with limit 1 and offset 0; it is absent exactly when
no stored record matches the decoded url; in that case the latest
endpoint answers 404 with `success=false` and a message that starts with
"No visits found", and otherwise it answers 200 with the record as the
payload. -/
theorem c4_latest_agreement (db : DB) (encodedUrl : String) :
    (Crud.get_latest_visit_by_url db (unquote encodedUrl)
      = (Crud.get_visits_by_url db (unquote encodedUrl) 1 0).head?) ∧
    (Crud.get_latest_visit_by_url db (unquote encodedUrl) = none
      ↔ matching db (unquote encodedUrl) = []) ∧
    (Crud.get_latest_visit_by_url db (unquote encodedUrl) = none →
      (Routers.get_latest_visit_for_url db encodedUrl).status = 404 ∧
      lookupKey (Routers.get_latest_visit_for_url db encodedUrl).body "success"
        = some (J.jBool false) ∧
      (∃ s, lookupKey (Routers.get_latest_visit_for_url db encodedUrl).body "message"
        = some (J.jStr ("No visits found" ++ s)))) ∧
    (∀ v, Crud.get_latest_visit_by_url db (unquote encodedUrl) = some v →
      (Routers.get_latest_visit_for_url db encodedUrl).status = 200 ∧
      lookupKey (Routers.get_latest_visit_for_url db encodedUrl).body "data"
        = some (visitToJ v)) := by
  refine ⟨?_, ?_, ?_, ?_⟩
  · unfold Crud.get_latest_visit_by_url Crud.get_visits_by_url
    rw [List.drop_zero, head?_take_one]
  · unfold Crud.get_latest_visit_by_url
    rw [List.head?_eq_none_iff]
    constructor
    · intro h
      exact (h ▸ sortedMatching_perm db (unquote encodedUrl) :
        List.Perm [] (matching db (unquote encodedUrl))).symm.eq_nil
    · intro h
      exact (h ▸ sortedMatching_perm db (unquote encodedUrl) :
        List.Perm (sortedMatching db (unquote encodedUrl)) []).eq_nil
  · intro h
    refine ⟨?_, ?_, ?_⟩
    · simp only [Routers.get_latest_visit_for_url, h]
      exact error_response_status _ _ _ _
    · simp [Routers.get_latest_visit_for_url, h, lookupKey_error_success]
    · refine ⟨" for URL: " ++ unquote encodedUrl, ?_⟩
      simp only [Routers.get_latest_visit_for_url, h]
      rw [lookupKey_error_message, ← no_visits_msg]
  · intro v h
    constructor
    · simp [Routers.get_latest_visit_for_url, h]
    · simp only [Routers.get_latest_visit_for_url, h]
      exact lookupKey_success_data _ _

/-- Witness for C4: the absent case on an empty store (404 with the
"No visits found" message) and the present case with one stored visit. -/
theorem c4_latest_agreement_witness :
    (Crud.get_latest_visit_by_url ⟨[], 0⟩ (unquote "https%3A%2F%2Fa.com") = none ∧
      (Routers.get_latest_visit_for_url ⟨[], 0⟩ "https%3A%2F%2Fa.com").status = 404 ∧
      lookupKey (Routers.get_latest_visit_for_url ⟨[], 0⟩ "https%3A%2F%2Fa.com").body "success"
        = some (J.jBool false) ∧
      (∃ s, lookupKey (Routers.get_latest_visit_for_url ⟨[], 0⟩ "https%3A%2F%2Fa.com").body "message"
        = some (J.jStr ("No visits found" ++ s)))) ∧
    (Crud.get_latest_visit_by_url ⟨[⟨0, "https://a.com", 1, 0, 0, 0, 0⟩], 1⟩
        (unquote "https%3A%2F%2Fa.com") = some ⟨0, "https://a.com", 1, 0, 0, 0, 0⟩ ∧
      (Routers.get_latest_visit_for_url ⟨[⟨0, "https://a.com", 1, 0, 0, 0, 0⟩], 1⟩
        "https%3A%2F%2Fa.com").status = 200) :=
  ⟨⟨by decide,
    ((c4_latest_agreement ⟨[], 0⟩ "https%3A%2F%2Fa.com").2.2.1 (by decide)).1,
    ((c4_latest_agreement ⟨[], 0⟩ "https%3A%2F%2Fa.com").2.2.1 (by decide)).2.1,
    ((c4_latest_agreement ⟨[], 0⟩ "https%3A%2F%2Fa.com").2.2.1 (by decide)).2.2⟩,
   ⟨by decide,
    ((c4_latest_agreement ⟨[⟨0, "https://a.com", 1, 0, 0, 0, 0⟩], 1⟩ "https%3A%2F%2Fa.com").2.2.2
      ⟨0, "https://a.com", 1, 0, 0, 0, 0⟩ (by decide)).1⟩⟩

/-! ### C5 -/

theorem totalField_success_obj (vs : List J) (t : Int) (m : String) :
    totalField (success_response (J.jObj [("visits", J.jArr vs), ("total", J.jInt t)]) m)
      = some (J.jInt t) := rfl

/-- C5 counterexample: with two stored visits and window `limit=1,
offset=0`, the `total` field GET `/api/visits` reports is 1 — the length
of the returned page — and not the stored record count 2, refuting the
claim that `total` is independent of the pagination window. -/
theorem c5_counterexample :
    (Routers.get_all_visits ⟨[⟨0, "a", 1, 0, 0, 0, 0⟩, ⟨1, "b", 2, 0, 0, 0, 0⟩], 2⟩ 1 0).status
      = 200 ∧
    totalField
      (Routers.get_all_visits ⟨[⟨0, "a", 1, 0, 0, 0, 0⟩, ⟨1, "b", 2, 0, 0, 0, 0⟩], 2⟩ 1 0).body
      = some (J.jInt 1) ∧
    (⟨[⟨0, "a", 1, 0, 0, 0, 0⟩, ⟨1, "b", 2, 0, 0, 0, 0⟩], 2⟩ : DB).visits.length = 2 ∧
    totalField
      (Routers.get_all_visits ⟨[⟨0, "a", 1, 0, 0, 0, 0⟩, ⟨1, "b", 2, 0, 0, 0, 0⟩], 2⟩ 1 0).body
      ≠ some (J.jInt 2) := by
  refine ⟨rfl, rfl, rfl, ?_⟩
  intro hcontra
  have h0 : totalField
      (Routers.get_all_visits ⟨[⟨0, "a", 1, 0, 0, 0, 0⟩, ⟨1, "b", 2, 0, 0, 0, 0⟩], 2⟩ 1 0).body
      = some (J.jInt 1) := rfl
  rw [h0] at hcontra
  injection hcontra with h1
  injection h1 with h2
  exact absurd h2 (by decide)

/-- C5 amended: the `total` field of GET `/api/visits` equals the length
of the page it returns (`len(visits)` in the handler), which varies with
the pagination window; only the per-URL endpoint's `total` carries the
window-independent store count. -/
theorem c5_total_semantics (db : DB) (limit offset : Int)
    (h1 : 1 ≤ limit) (h2 : limit ≤ 500) (h3 : 0 ≤ offset) :
    totalField (Routers.get_all_visits db limit offset).body
      = some (J.jInt ((Crud.get_all_visits db limit.toNat offset.toNat).length : Int)) ∧
    (∀ (url : String) (limit2 offset2 : Int), 1 ≤ limit2 → limit2 ≤ 100 → 0 ≤ offset2 →
      totalField (Routers.get_visits_for_url db url limit2 offset2).body
        = some (J.jInt ((Crud.get_visit_count_by_url db (unquote url)) : Int))) := by
  constructor
  · unfold Routers.get_all_visits
    split
    · exact totalField_success_obj _ _ _
    · rename_i hcond
      exact absurd ⟨h1, h2, h3⟩ hcond
  · intro url limit2 offset2 g1 g2 g3
    unfold Routers.get_visits_for_url
    split
    · exact totalField_success_obj _ _ _
    · rename_i hcond
      exact absurd ⟨g1, g2, g3⟩ hcond

/-- Witness for C5's amended claim: the same two-visit store under window
`limit=1`: the all-visits `total` is the page length 1, the per-URL
`total` is the full matching count. -/
theorem c5_total_semantics_witness :
    ((1 : Int) ≤ 1 ∧ (1 : Int) ≤ 500 ∧ (0 : Int) ≤ 0) ∧
    totalField
      (Routers.get_all_visits ⟨[⟨0, "a", 1, 0, 0, 0, 0⟩, ⟨1, "b", 2, 0, 0, 0, 0⟩], 2⟩ 1 0).body
      = some (J.jInt ((Crud.get_all_visits
          ⟨[⟨0, "a", 1, 0, 0, 0, 0⟩, ⟨1, "b", 2, 0, 0, 0, 0⟩], 2⟩ (1 : Int).toNat
          (0 : Int).toNat).length : Int)) :=
  ⟨⟨by decide, by decide, by decide⟩,
   (c5_total_semantics ⟨[⟨0, "a", 1, 0, 0, 0, 0⟩, ⟨1, "b", 2, 0, 0, 0, 0⟩], 2⟩ 1 0
      (by decide) (by decide) (by decide)).1⟩

/-! ### C6 -/

theorem lookupKey_error_errors (m : String) (st : Nat) (e : String) :
    lookupKey (error_response m st (some [e]) none).2 "errors" = some (J.jArr [J.jStr e]) := rfl

theorem lookupKey_error_message_with_errors (m : String) (st : Nat) (e : String) :
    lookupKey (error_response m st (some [e]) none).2 "message" = some (J.jStr m) := rfl

theorem bodyKeys_error_none (m : String) (st : Nat) :
    bodyKeys (error_response m st none none).2 = ["success", "message"] := rfl

/-- C6 counterexample: a valid POST body whose store write raises a
`SQLAlchemyError` with message "server closed the connection
unexpectedly" yields a 500 response whose `errors` list carries that
store error text verbatim — the POST failure response does leak the raw
exception string. -/
theorem c6_counterexample :
    (Routers.create_visit ⟨[], 0⟩
        { url := some (J.jStr "https://example.com"), link_count := some (J.jInt 10),
          word_count := some (J.jInt 500), image_count := some (J.jInt 5) } 0
        (.sqlAlchemyError "server closed the connection unexpectedly")).status = 500 ∧
    lookupKey (Routers.create_visit ⟨[], 0⟩
        { url := some (J.jStr "https://example.com"), link_count := some (J.jInt 10),
          word_count := some (J.jInt 500), image_count := some (J.jInt 5) } 0
        (.sqlAlchemyError "server closed the connection unexpectedly")).body "errors"
      = some (J.jArr [J.jStr "server closed the connection unexpectedly"]) :=
  ⟨rfl, rfl⟩

/-- C6 amended: on a store failure the POST handler does answer with a
500 envelope whose `message` is generic, but when the failure is a
`SQLAlchemyError` the raw exception string is placed verbatim in the
body's `errors` list; only the catch-all branch (non-SQLAlchemy
exceptions) leaks nothing. -/
theorem c6_error_leakage (db : DB) (raw : RawCreate) (now : Int) (e : String)
    (visit : PageVisitCreate) (hv : validatePageVisitCreate raw = .ok visit) :
    ((Routers.create_visit db raw now (.sqlAlchemyError e)).status = 500 ∧
      lookupKey (Routers.create_visit db raw now (.sqlAlchemyError e)).body "message"
        = some (J.jStr "Failed to create visit") ∧
      lookupKey (Routers.create_visit db raw now (.sqlAlchemyError e)).body "errors"
        = some (J.jArr [J.jStr e])) ∧
    (∀ e2 : String, (Routers.create_visit db raw now (.unexpectedError e2)).status = 500 ∧
      lookupKey (Routers.create_visit db raw now (.unexpectedError e2)).body "message"
        = some (J.jStr "An unexpected error occurred") ∧
      "errors" ∉ bodyKeys (Routers.create_visit db raw now (.unexpectedError e2)).body) := by
  constructor
  · refine ⟨?_, ?_, ?_⟩
    · simp only [Routers.create_visit, hv]
      exact error_response_status _ _ _ _
    · simp only [Routers.create_visit, hv]
      exact lookupKey_error_message_with_errors _ _ _
    · simp only [Routers.create_visit, hv]
      exact lookupKey_error_errors _ _ _
  · intro e2
    refine ⟨?_, ?_, ?_⟩
    · simp only [Routers.create_visit, hv]
      exact error_response_status _ _ _ _
    · simp only [Routers.create_visit, hv]
      exact lookupKey_error_message _ _
    · simp only [Routers.create_visit, hv]
      rw [bodyKeys_error_none]
      decide

/-- Witness for C6's amended claim at a concrete body and store error. -/
theorem c6_error_leakage_witness :
    validatePageVisitCreate
      { url := some (J.jStr "https://example.com"), link_count := some (J.jInt 10),
        word_count := some (J.jInt 500), image_count := some (J.jInt 5) }
      = .ok ⟨"https://example.com", none, 10, 500, 5⟩ ∧
    lookupKey (Routers.create_visit ⟨[], 0⟩
        { url := some (J.jStr "https://example.com"), link_count := some (J.jInt 10),
          word_count := some (J.jInt 500), image_count := some (J.jInt 5) } 0
        (.sqlAlchemyError "FATAL: database does not exist")).body "errors"
      = some (J.jArr [J.jStr "FATAL: database does not exist"]) :=
  ⟨rfl,
   ((c6_error_leakage ⟨[], 0⟩
      { url := some (J.jStr "https://example.com"), link_count := some (J.jInt 10),
        word_count := some (J.jInt 500), image_count := some (J.jInt 5) } 0
      "FATAL: database does not exist" ⟨"https://example.com", none, 10, 500, 5⟩ rfl).1).2.2⟩

/-! ### C7 -/

/-- C7 (evidence of the code bug): `schemas.py` declares `url: str` with
no format constraint (its `HttpUrl` import is unused), so the body of the
repository's own integration test `test_create_visit_invalid_url` —
`url="not-a-valid-url"` with valid metrics — passes validation, reaches
the store and is answered 201; an empty-string url is accepted the same
way.  The spec (and that test) requires a 422 rejection before any store
access. -/
theorem c7_url_validation_gap :
    validatePageVisitCreate
      { url := some (J.jStr "not-a-valid-url"), link_count := some (J.jInt 10),
        word_count := some (J.jInt 500), image_count := some (J.jInt 5) }
      = .ok ⟨"not-a-valid-url", none, 10, 500, 5⟩ ∧
    (Routers.create_visit ⟨[], 0⟩
      { url := some (J.jStr "not-a-valid-url"), link_count := some (J.jInt 10),
        word_count := some (J.jInt 500), image_count := some (J.jInt 5) } 0 .ok).status = 201 ∧
    (Routers.create_visit ⟨[], 0⟩
      { url := some (J.jStr "not-a-valid-url"), link_count := some (J.jInt 10),
        word_count := some (J.jInt 500), image_count := some (J.jInt 5) } 0 .ok).storeTouched
      = true ∧
    validatePageVisitCreate
      { url := some (J.jStr ""), link_count := some (J.jInt 10),
        word_count := some (J.jInt 500), image_count := some (J.jInt 5) }
      = .ok ⟨"", none, 10, 500, 5⟩ :=
  ⟨rfl, rfl, rfl, rfl⟩

/-! ### C8 -/

theorem create_visit_status_of_error (db : DB) (raw : RawCreate) (now : Int)
    (store : StoreOutcome) (es : List String)
    (h : validatePageVisitCreate raw = .error es) :
    (Routers.create_visit db raw now store).status = 422 ∧
    (Routers.create_visit db raw now store).storeTouched = false := by
  constructor <;> simp [Routers.create_visit, h]

/-- C8: validation boundaries — a negative `link_count` (here any
negative integer), a missing metric or a non-integer metric is rejected
with 422 before the store is touched, while `link_count=0` is accepted
(201); on the list endpoints `limit=0` and `limit` above the maximum
(100 per-URL, 500 all-visits) are rejected with 422, while `limit=1` and
the maximum are accepted (200). -/
theorem c8_validation_boundaries :
    (∀ n : Int, n < 0 →
      (Routers.create_visit ⟨[], 0⟩
        { url := some (J.jStr "https://example.com"), link_count := some (J.jInt n),
          word_count := some (J.jInt 500), image_count := some (J.jInt 5) } 0 .ok).status = 422 ∧
      (Routers.create_visit ⟨[], 0⟩
        { url := some (J.jStr "https://example.com"), link_count := some (J.jInt n),
          word_count := some (J.jInt 500), image_count := some (J.jInt 5) } 0 .ok).storeTouched
        = false) ∧
    (Routers.create_visit ⟨[], 0⟩
      { url := some (J.jStr "https://example.com"), link_count := some (J.jInt 0),
        word_count := some (J.jInt 500), image_count := some (J.jInt 5) } 0 .ok).status = 201 ∧
    (Routers.create_visit ⟨[], 0⟩
      { url := some (J.jStr "https://example.com"),
        word_count := some (J.jInt 500), image_count := some (J.jInt 5) } 0 .ok).status = 422 ∧
    (Routers.create_visit ⟨[], 0⟩
      { url := some (J.jStr "https://example.com"),
        word_count := some (J.jInt 500), image_count := some (J.jInt 5) } 0 .ok).storeTouched
      = false ∧
    (∀ s : String, strToInt? s = none →
      (Routers.create_visit ⟨[], 0⟩
        { url := some (J.jStr "https://example.com"), link_count := some (J.jStr s),
          word_count := some (J.jInt 500), image_count := some (J.jInt 5) } 0 .ok).status = 422) ∧
    (∀ (db : DB) (u : String),
      (Routers.get_visits_for_url db u 0 0).status = 422 ∧
      (Routers.get_visits_for_url db u 1 0).status = 200 ∧
      (Routers.get_visits_for_url db u 100 0).status = 200 ∧
      (∀ l : Int, 100 < l → (Routers.get_visits_for_url db u l 0).status = 422) ∧
      (Routers.get_all_visits db 0 0).status = 422 ∧
      (Routers.get_all_visits db 1 0).status = 200 ∧
      (Routers.get_all_visits db 500 0).status = 200 ∧
      (∀ l : Int, 500 < l → (Routers.get_all_visits db l 0).status = 422)) := by
  refine ⟨?_, rfl, rfl, rfl, ?_, ?_⟩
  · intro n hn
    have hv : validatePageVisitCreate
        { url := some (J.jStr "https://example.com"), link_count := some (J.jInt n),
          word_count := some (J.jInt 500), image_count := some (J.jInt 5) }
        = .error ["Input should be greater than or equal to 0"] := by
      have hneg := not_le.mpr hn
      simp [validatePageVisitCreate, validateStrField, validateMetricField, errsOf, hneg]
    exact create_visit_status_of_error _ _ _ _ _ hv
  · intro s hs
    have hv : validatePageVisitCreate
        { url := some (J.jStr "https://example.com"), link_count := some (J.jStr s),
          word_count := some (J.jInt 500), image_count := some (J.jInt 5) }
        = .error ["Input should be a valid integer"] := by
      simp [validatePageVisitCreate, validateStrField, validateMetricField, errsOf, hs]
    exact (create_visit_status_of_error _ _ _ _ _ hv).1
  · intro db u
    refine ⟨rfl, rfl, rfl, ?_, rfl, rfl, rfl, ?_⟩
    · intro l hl
      unfold Routers.get_visits_for_url
      rw [if_neg (fun hc => absurd hc.2.1 (not_le.mpr hl))]
    · intro l hl
      unfold Routers.get_all_visits
      rw [if_neg (fun hc => absurd hc.2.1 (not_le.mpr hl))]

/-- Witness for C8 at the concrete boundary inputs: `link_count=-1`,
the non-integer metric `"ten"`, `limit=101` per-URL and `limit=501`
all-visits. -/
theorem c8_validation_boundaries_witness :
    ((-1 : Int) < 0 ∧
      (Routers.create_visit ⟨[], 0⟩
        { url := some (J.jStr "https://example.com"), link_count := some (J.jInt (-1)),
          word_count := some (J.jInt 500), image_count := some (J.jInt 5) } 0 .ok).status
        = 422) ∧
    (strToInt? "ten" = none ∧
      (Routers.create_visit ⟨[], 0⟩
        { url := some (J.jStr "https://example.com"), link_count := some (J.jStr "ten"),
          word_count := some (J.jInt 500), image_count := some (J.jInt 5) } 0 .ok).status
        = 422) ∧
    ((100 : Int) < 101 ∧ (Routers.get_visits_for_url ⟨[], 0⟩ "a" 101 0).status = 422) ∧
    ((500 : Int) < 501 ∧ (Routers.get_all_visits ⟨[], 0⟩ 501 0).status = 422) :=
  ⟨⟨by decide, ((c8_validation_boundaries.1 (-1) (by decide)).1)⟩,
   ⟨by decide, (c8_validation_boundaries.2.2.2.2.1 "ten" (by decide))⟩,
   ⟨by decide, ((c8_validation_boundaries.2.2.2.2.2 ⟨[], 0⟩ "a").2.2.2.1 101 (by decide))⟩,
   ⟨by decide, ((c8_validation_boundaries.2.2.2.2.2 ⟨[], 0⟩ "a").2.2.2.2.2.2.2 501 (by decide))⟩⟩

/-! ### C9 -/

theorem visitsField_success_obj (vs : List J) (t : Int) (m : String) :
    visitsField (success_response (J.jObj [("visits", J.jArr vs), ("total", J.jInt t)]) m)
      = some vs := rfl

/-- C9: filter exactness — the per-URL endpoint percent-decodes the
path-embedded url and serializes exactly the page the store query
returns for the decoded value; every record in that result is a stored
record whose `url` equals the decoded value character for character, and
a stored record with any differing `url` is never included. -/
theorem c9_filter_exactness (db : DB) (encodedUrl : String) (limit offset : Int)
    (h1 : 1 ≤ limit) (h2 : limit ≤ 100) (h3 : 0 ≤ offset) :
    visitsField (Routers.get_visits_for_url db encodedUrl limit offset).body
      = some ((Crud.get_visits_by_url db (unquote encodedUrl) limit.toNat offset.toNat).map
          visitToJ) ∧
    (∀ v ∈ Crud.get_visits_by_url db (unquote encodedUrl) limit.toNat offset.toNat,
      v ∈ db.visits ∧ v.url = unquote encodedUrl) ∧
    (∀ v ∈ db.visits, v.url ≠ unquote encodedUrl →
      v ∉ Crud.get_visits_by_url db (unquote encodedUrl) limit.toNat offset.toNat) := by
  refine ⟨?_, ?_, ?_⟩
  · unfold Routers.get_visits_for_url
    split
    · exact visitsField_success_obj _ _ _
    · rename_i hcond
      exact absurd ⟨h1, h2, h3⟩ hcond
  · intro v hv
    exact mem_get_visits_by_url hv
  · intro v _ hne hmem
    exact hne (mem_get_visits_by_url hmem).2

/-- Witness for C9: a store holding visits to `https://a.com` and
`https://b.com`, queried through the encoded path value
`https%3A%2F%2Fa.com`. -/
theorem c9_filter_exactness_witness :
    ((1 : Int) ≤ 50 ∧ (50 : Int) ≤ 100 ∧ (0 : Int) ≤ 0) ∧
    visitsField (Routers.get_visits_for_url
        ⟨[⟨0, "https://a.com", 1, 0, 0, 0, 0⟩, ⟨1, "https://b.com", 2, 0, 0, 0, 0⟩], 2⟩
        "https%3A%2F%2Fa.com" 50 0).body
      = some ((Crud.get_visits_by_url
          ⟨[⟨0, "https://a.com", 1, 0, 0, 0, 0⟩, ⟨1, "https://b.com", 2, 0, 0, 0, 0⟩], 2⟩
          (unquote "https%3A%2F%2Fa.com") (50 : Int).toNat (0 : Int).toNat).map visitToJ) ∧
    Crud.get_visits_by_url
        ⟨[⟨0, "https://a.com", 1, 0, 0, 0, 0⟩, ⟨1, "https://b.com", 2, 0, 0, 0, 0⟩], 2⟩
        (unquote "https%3A%2F%2Fa.com") (50 : Int).toNat (0 : Int).toNat
      = [⟨0, "https://a.com", 1, 0, 0, 0, 0⟩] :=
  ⟨⟨by decide, by decide, by decide⟩,
   (c9_filter_exactness
      ⟨[⟨0, "https://a.com", 1, 0, 0, 0, 0⟩, ⟨1, "https://b.com", 2, 0, 0, 0, 0⟩], 2⟩
      "https%3A%2F%2Fa.com" 50 0 (by decide) (by decide) (by decide)).1,
   by decide⟩

/-! ### C10 -/

/-- Truthiness of an optional list argument, as Python's `if errors:` /
`if data:` sees it: `None` and the empty container are falsy. -/
def listTruthy {α : Type} : Option (List α) → Bool
  | some (_ :: _) => true
  | _ => false

/-- C10: envelope key invariant — a success envelope consists of exactly
the keys `success`, `message`, `data` (never `errors`); an error
envelope carries the `errors` key exactly when a non-empty errors list
was supplied and the `data` key exactly when a non-empty data dict was
supplied, so empty containers are omitted rather than serialized. -/
theorem c10_envelope_keys (d : J) (m : String) (st : Nat)
    (errors : Option (List String)) (data : Option (List (String × J))) :
    bodyKeys (success_response d m) = ["success", "message", "data"] ∧
    "errors" ∉ bodyKeys (success_response d m) ∧
    (("errors" ∈ bodyKeys (error_response m st errors data).2) ↔ listTruthy errors = true) ∧
    (("data" ∈ bodyKeys (error_response m st errors data).2) ↔ listTruthy data = true) := by
  have hkeys : bodyKeys (success_response d m) = ["success", "message", "data"] := rfl
  refine ⟨hkeys, ?_, ?_, ?_⟩
  · rw [hkeys]
    decide
  all_goals
    rcases errors with _ | ⟨_ | ⟨e, es⟩⟩ <;>
    rcases data with _ | ⟨_ | ⟨p, ps⟩⟩ <;>
    simp [error_response, bodyKeys, listTruthy]

end Protego
